import Mathlib

/-!
Verification of the gene-set scoring module (`score_genes` and
`score_genes_cell_cycle` in `scanpy/tools/score_genes.py`) as a shallow
embedding.

Modelling conventions:

* Expression values are exact rationals (`ℚ`); no not-a-number entries are
  modelled, so the source's `np.nanmean` coincides with the plain mean, and
  the mean over an empty column selection is left at the degenerate value `0`
  (division by zero in `ℚ`).
* The process-wide numpy random generator is modelled abstractly: a state
  type `σ` with a `seed` function and a `shuffle` function, the latter
  required to permute its input.  This matches the `seed`/`shuffle`
  interface the code consumes.
* Python sets of gene names are represented canonically as the sublist of
  `var_names` containing their elements; every downstream use of those sets
  in the source (`np.unique`, set difference, column means) is insensitive
  to the iteration order of a Python set.
* Pandas ranks are floats and `rank // n_items` with `n_items = 0` yields
  not-a-number; a gene's cut value is therefore an `Option ℤ`, with `none`
  standing for that NaN.  Comparisons with NaN are all false, and
  `np.unique` sorts NaN last.
-/

/-- A column of the observation-annotation table `adata.obs`: numeric
(scores) or categorical (the phase labels). -/
inductive Col where
  | num (vals : List ℚ)
  | cat (vals : List String)
  deriving DecidableEq, Repr

/-- The annotated data container: expression matrix `X` (rows are cells,
columns are genes), the gene names `var_names`, and the observation
annotation table `obs` as an association list from column name to column. -/
structure AnnData where
  X : List (List ℚ)
  var_names : List String
  obs : List (String × Col)
  deriving DecidableEq, Repr

instance {ε α : Type} [DecidableEq ε] [DecidableEq α] :
    DecidableEq (Except ε α) := fun x y =>
  match x, y with
  | Except.error a, Except.error b => decidable_of_iff (a = b) (by simp)
  | Except.ok a, Except.ok b => decidable_of_iff (a = b) (by simp)
  | Except.error _, Except.ok _ => Decidable.isFalse (by simp)
  | Except.ok _, Except.error _ => Decidable.isFalse (by simp)

/-- Write (or overwrite) a named column of `adata.obs`. -/
def setObs (a : AnnData) (name : String) (c : Col) : AnnData :=
  { a with obs := a.obs.filter (fun p => decide (p.1 ≠ name)) ++ [(name, c)] }

/-- Read a named column of `adata.obs`. -/
def getObs (a : AnnData) (name : String) : Option Col :=
  (a.obs.find? (fun p => decide (p.1 = name))).map Prod.snd

/-- Read a named numeric column of `adata.obs`. -/
def getObsNum (a : AnnData) (name : String) : Option (List ℚ) :=
  match getObs a name with
  | some (Col.num v) => some v
  | _ => none

/-- The process-wide random generator interface used by the code
(`np.random.seed` and `np.random.shuffle`): a state type, a seeding
function, and a shuffle that permutes its input list. -/
structure RNG (σ : Type) where
  seedFn : ℤ → σ
  shuffleFn : σ → List String → List String × σ
  shuffle_perm : ∀ s l, (shuffleFn s l).1.Perm l

/-- Nearest-integer rounding with ties to even, the rounding `np.round`
applies in `int(np.round(len(obs_avg) / (n_bins - 1)))`. -/
def roundHalfEvenQ (q : ℚ) : ℤ :=
  let f := ⌊q⌋
  if q - f < 1 / 2 then f
  else if q - f > 1 / 2 then f + 1
  else if f % 2 = 0 then f else f + 1

/-- Average expression of the gene named `g` over all cells: the column mean
computed by `np.nanmean(adata[:, gene_pool].X, axis=0)` (no NaN entries are
modelled). -/
def colAvg (a : AnnData) (g : String) : ℚ :=
  let j := a.var_names.indexOf g
  let col := a.X.map (fun row => row.getD j 0)
  col.sum / col.length

/-- Competition ranks (`pandas .rank(method='min')`): every entry gets one
plus the number of strictly smaller entries. -/
def minRanks (vals : List ℚ) : List ℕ :=
  vals.map (fun v => 1 + (vals.filter (fun w => decide (w < v))).length)

/-- Line 64: `gene_list = set([x for x in gene_list if x in adata.var_names])`,
the set represented canonically as a sublist of `var_names`. -/
def filteredGeneList (a : AnnData) (gene_list : List String) : List String :=
  a.var_names.filter (fun g => decide (g ∈ gene_list))

/-- Lines 66-69: the gene pool defaults to all of `var_names` when absent or
empty (Python falsiness), and is otherwise intersected with `var_names`. -/
def resolvedGenePool (a : AnnData) : Option (List String) → List String
  | none => a.var_names
  | some gp => if gp = [] then a.var_names
               else gp.filter (fun g => decide (g ∈ a.var_names))

/-- Lines 84-85: each pool gene paired with its cut value
`obs_avg.rank(method='min') // n_items` where
`n_items = int(np.round(len(obs_avg) / (n_bins - 1)))`.  A zero `n_items`
makes the float floor division produce NaN, modelled as `none`. -/
def cut_pairs (a : AnnData) (pool : List String) (n_bins : ℤ) :
    List (String × Option ℤ) :=
  let avgs := pool.map (colAvg a)
  let nI := roundHalfEvenQ ((pool.length : ℚ) / ((n_bins : ℚ) - 1))
  pool.zip ((minRanks avgs).map
    (fun (r : ℕ) => if nI = 0 then none else some (Int.fdiv (r : ℤ) nI)))

/-- Line 90: `r_genes = np.array(obs_cut[obs_cut == cut].index)`.  A NaN cut
compares false with everything, so the NaN bin is empty. -/
def binGenes (pairs : List (String × Option ℤ)) : Option ℤ → List String
  | none => []
  | some k => (pairs.filter (fun p => p.2 == some k)).map Prod.fst

/-- Ordering of cut values under `np.unique`: ascending, NaN last. -/
def cutLE : Option ℤ → Option ℤ → Bool
  | some a, some b => a ≤ b
  | some _, none => true
  | none, _ => false

/-- Insertion step of the sort used to model `np.unique`. -/
def insertCut (c : Option ℤ) : List (Option ℤ) → List (Option ℤ)
  | [] => [c]
  | d :: rest => if cutLE c d then c :: d :: rest else d :: insertCut c rest

/-- Ascending sort of cut values (`np.unique` output order). -/
def sortCuts : List (Option ℤ) → List (Option ℤ)
  | [] => []
  | c :: rest => insertCut c (sortCuts rest)

/-- Lines 89-92: for each cut, shuffle the genes of that bin with the global
generator and keep the first `ctrl_size` of them.  Returns the per-cut
selections together with the final generator state. -/
def select_bins {σ : Type} (shuffle : σ → List String → List String × σ)
    (ctrl_size : ℕ) (pairs : List (String × Option ℤ)) :
    List (Option ℤ) → σ → List (Option ℤ × List String) × σ
  | [], s => ([], s)
  | c :: cuts, s =>
    let sh := shuffle s (binGenes pairs c)
    let rest := select_bins shuffle ctrl_size pairs cuts sh.2
    ((c, sh.1.take ctrl_size) :: rest.1, rest.2)

/-- Row-wise mean over the columns named in `genes`
(`np.mean(adata[:, genes].X, axis=1)` for one row). -/
def rowMean (a : AnnData) (genes : List String) (row : List ℚ) : ℚ :=
  ((genes.map (fun g => row.getD (a.var_names.indexOf g) 0)).sum) /
    (genes.length : ℚ)

/-- Everything the caller can observe about one `score_genes` call: the
Python return value (or the exception), the caller's container after the
call, the global generator state after the call, and — for specification
purposes — the control genes used at line 98 and the per-bin selections of
lines 89-92. -/
structure ScoreOutcome (σ : Type) where
  result : Except String (Option AnnData)
  adataAfter : AnnData
  rngAfter : σ
  controlUsed : List String
  selections : List (Option ℤ × List String)

/-- Body of `score_genes` after line 64 has replaced `gene_list` by its
filtered set `gl`.  Follows `scanpy/tools/score_genes.py` lines 58-104:
seed when `random_state` is truthy, resolve the pool, fail with
`ZeroDivisionError` when `n_bins - 1 = 0`, bin the pool genes by ranked
average expression, sample the control genes per bin, subtract the target
genes from the control set, and write the score column. -/
def score_genes_with_gl {σ : Type} (rng : RNG σ) (adata : AnnData)
    (gl : List String) (ctrl_size : ℕ) (gene_pool : Option (List String))
    (n_bins : ℤ) (score_name : String) (random_state : ℤ) (copy : Bool)
    (s0 : σ) : ScoreOutcome σ :=
  let s1 := if random_state ≠ 0 then rng.seedFn random_state else s0
  let pool := resolvedGenePool adata gene_pool
  if n_bins - 1 = 0 then
    ⟨Except.error "ZeroDivisionError: division by zero", adata, s1, [], []⟩
  else
    let pairs := cut_pairs adata pool n_bins
    let glCuts := sortCuts ((gl.map (fun g => ((pairs.lookup g).join))).dedup)
    let sg := select_bins rng.shuffleFn ctrl_size pairs glCuts s1
    let rawControl := (sg.1.map Prod.snd).flatten
    let control_genes :=
      adata.var_names.filter (fun g => decide (g ∈ rawControl ∧ g ∉ gl))
    let score := adata.X.map
      (fun row => rowMean adata gl row - rowMean adata control_genes row)
    let updated := setObs adata score_name (Col.num score)
    if copy then ⟨Except.ok (some updated), adata, sg.2, control_genes, sg.1⟩
    else ⟨Except.ok none, updated, sg.2, control_genes, sg.1⟩

/-- `score_genes` of `scanpy/tools/score_genes.py` (lines 11-104). -/
def score_genes {σ : Type} (rng : RNG σ) (adata : AnnData)
    (gene_list : List String) (ctrl_size : ℕ)
    (gene_pool : Option (List String)) (n_bins : ℤ) (score_name : String)
    (random_state : ℤ) (copy : Bool) (s0 : σ) : ScoreOutcome σ :=
  score_genes_with_gl rng adata (filteredGeneList adata gene_list) ctrl_size
    gene_pool n_bins score_name random_state copy s0

/-- Per-cell phase assignment of `score_genes_cell_cycle` lines 162-169, as
the sequential overwrites of the source: default `S`, overwrite with `G2M`
where `G2M_score > S_score`, then overwrite with `G1` where both scores are
negative. -/
def phaseOf (s_score g2m_score : ℚ) : String :=
  let p := "S"
  let p := if g2m_score > s_score then "G2M" else p
  let p := if s_score < 0 ∧ g2m_score < 0 then "G1" else p
  p

/-- The keyword arguments `score_genes_cell_cycle` may forward to
`score_genes` through `**kwargs`.  A present `ctrl_size` collides with the
explicit `ctrl_size=ctrl_size` at the call sites (lines 157 and 159) and
makes the call raise `TypeError`. -/
structure Kwargs where
  ctrl_size? : Option ℕ
  gene_pool? : Option (List String)
  n_bins? : Option ℤ
  random_state? : Option ℤ
  copy? : Option Bool
  deriving DecidableEq, Repr

/-- Observable outcome of one `score_genes_cell_cycle` call; `ctrlSizeUsed`
records the `ctrl_size` value the Scorer was invoked with (`none` when the
Scorer was never invoked). -/
structure CCOutcome (σ : Type) where
  result : Except String (Option AnnData)
  adataAfter : AnnData
  rngAfter : σ
  ctrlSizeUsed : Option ℕ

/-- `score_genes_cell_cycle` of `scanpy/tools/score_genes.py` (lines
107-173): clone under `copy`, force `ctrl_size = min(len(s_genes),
len(g2m_genes))`, score the two lists, and derive the phase column. -/
def score_genes_cell_cycle {σ : Type} (rng : RNG σ) (adata : AnnData)
    (s_genes g2m_genes : List String) (copy : Bool) (kwargs : Kwargs)
    (s0 : σ) : CCOutcome σ :=
  let ctrl_size := min s_genes.length g2m_genes.length
  if kwargs.ctrl_size?.isSome then
    ⟨Except.error
       "TypeError: score_genes() got multiple values for keyword argument ctrl_size",
     adata, s0, none⟩
  else
    let nb := kwargs.n_bins?.getD 25
    let rs := kwargs.random_state?.getD 0
    let innerCopy := kwargs.copy?.getD false
    let o1 := score_genes rng adata s_genes ctrl_size kwargs.gene_pool? nb
      "S_score" rs innerCopy s0
    match o1.result with
    | Except.error e =>
        ⟨Except.error e, if copy then adata else o1.adataAfter, o1.rngAfter,
         some ctrl_size⟩
    | Except.ok _ =>
      let o2 := score_genes rng o1.adataAfter g2m_genes ctrl_size
        kwargs.gene_pool? nb "G2M_score" rs innerCopy o1.rngAfter
      match o2.result with
      | Except.error e =>
          ⟨Except.error e, if copy then adata else o2.adataAfter, o2.rngAfter,
           some ctrl_size⟩
      | Except.ok _ =>
        match getObsNum o2.adataAfter "S_score",
              getObsNum o2.adataAfter "G2M_score" with
        | some sCol, some gCol =>
            let phase := List.zipWith phaseOf sCol gCol
            let final := setObs o2.adataAfter "phase" (Col.cat phase)
            if copy then ⟨Except.ok (some final), adata, o2.rngAfter, some ctrl_size⟩
            else ⟨Except.ok none, final, o2.rngAfter, some ctrl_size⟩
        | _, _ =>
            ⟨Except.error "KeyError: S_score or G2M_score",
             if copy then adata else o2.adataAfter, o2.rngAfter, some ctrl_size⟩

/-- A concrete two-state random generator instance used for the concrete
runs below: its shuffle reverses the list in one state and keeps it in the
other, flipping the state each time. -/
def flipRNG : RNG Bool where
  seedFn n := n % 2 == 1
  shuffleFn s l := (if s then l.reverse else l, !s)
  shuffle_perm := by
    intro s l
    by_cases hs : s <;> simp [hs]

/-- A concrete container: one cell and four genes A, B, C, D with average
expressions 1, 2, 3, 4. -/
def adataABCD : AnnData :=
  ⟨[[1, 2, 3, 4]], ["A", "B", "C", "D"], []⟩

/-- The bin index asserted by the claim for C1, following the words of the
spec: the competition rank integer-divided by the ceiling of
`pool_size / (n_bins - 1)`. -/
def claimBinIndex (poolLen : ℕ) (n_bins : ℤ) (rank : ℕ) : ℤ :=
  Int.fdiv (rank : ℤ) ⌈(poolLen : ℚ) / ((n_bins : ℚ) - 1)⌉

lemma find_key_in_setObs_filter (obs : List (String × Col)) (n m : String)
    (h : m ≠ n) :
    (obs.filter (fun p => decide (p.1 ≠ n))).find? (fun p => decide (p.1 = m))
      = obs.find? (fun p => decide (p.1 = m)) := by
  induction obs with
  | nil => rfl
  | cons q rest ih =>
    by_cases hq : q.1 = n
    · rw [List.filter_cons, if_neg (by simp [hq]),
        List.find?_cons_of_neg _ (by simp [hq]; exact fun e => h e.symm), ih]
    · by_cases hm : q.1 = m
      · rw [List.filter_cons, if_pos (by simp [hq]),
          List.find?_cons_of_pos _ (by simp [hm]),
          List.find?_cons_of_pos _ (by simp [hm])]
      · rw [List.filter_cons, if_pos (by simp [hq]),
          List.find?_cons_of_neg _ (by simp [hm]),
          List.find?_cons_of_neg _ (by simp [hm]), ih]

lemma getObs_setObs_same (a : AnnData) (n : String) (c : Col) :
    getObs (setObs a n c) n = some c := by
  unfold getObs setObs
  rw [List.find?_append]
  have h1 : (a.obs.filter (fun p => decide (p.1 ≠ n))).find?
      (fun p => decide (p.1 = n)) = none := by
    rw [List.find?_eq_none]
    intro p hp
    have := (List.mem_filter.mp hp).2
    simp at this ⊢
    exact this
  simp [h1, List.find?_cons]

lemma getObs_setObs_other (a : AnnData) (n m : String) (c : Col)
    (h : m ≠ n) : getObs (setObs a n c) m = getObs a m := by
  unfold getObs setObs
  rw [List.find?_append, find_key_in_setObs_filter a.obs n m h]
  cases hf : a.obs.find? (fun p => decide (p.1 = m)) with
  | some q => simp
  | none =>
    have h2 : decide (n = m) = false := by simp [Ne.symm h]
    simp [List.find?_cons, h2]

lemma getObsNum_setObs_num (a : AnnData) (n : String) (v : List ℚ) :
    getObsNum (setObs a n (Col.num v)) n = some v := by
  unfold getObsNum
  rw [getObs_setObs_same]

lemma getObsNum_setObs_other (a : AnnData) (n m : String) (c : Col)
    (h : m ≠ n) : getObsNum (setObs a n c) m = getObsNum a m := by
  unfold getObsNum
  rw [getObs_setObs_other a n m c h]

lemma select_bins_mem_length {σ : Type}
    (shuffle : σ → List String → List String × σ)
    (hperm : ∀ s l, (shuffle s l).1.Perm l) (cs : ℕ)
    (pairs : List (String × Option ℤ)) (cuts : List (Option ℤ)) :
    ∀ (s : σ) (c : Option ℤ) (sel : List String),
      (c, sel) ∈ (select_bins shuffle cs pairs cuts s).1 →
      sel.length = min cs (binGenes pairs c).length := by
  induction cuts with
  | nil =>
    intro s c sel h
    simp [select_bins] at h
  | cons c0 rest ih =>
    intro s c sel h
    simp only [select_bins] at h
    rcases List.mem_cons.mp h with h1 | h2
    · rw [Prod.mk.injEq] at h1
      obtain ⟨hc, hsel⟩ := h1
      subst hc
      rw [hsel, List.length_take,
        (hperm s (binGenes pairs c)).length_eq]
    · exact ih _ _ _ h2

lemma filteredGeneList_append_unknown (a : AnnData) (L U : List String)
    (h : ∀ u ∈ U, u ∉ a.var_names) :
    filteredGeneList a (L ++ U) = filteredGeneList a L := by
  unfold filteredGeneList
  apply List.filter_congr
  intro g hg
  have hU : g ∉ U := fun hu => h g hu hg
  rw [decide_eq_decide]
  simp [List.mem_append, hU]

lemma inter_eq_nil_of_not_mem {α : Type} [DecidableEq α] (l m : List α)
    (h : ∀ x ∈ l, x ∉ m) : l.inter m = [] := by
  rw [List.inter, List.filter_eq_nil_iff]
  intro a ha
  simp [h a ha]

/-- C4: a cell whose two scores are both strictly negative is assigned
phase G1 even when G2M_score > S_score (the later overwrite wins); any
other cell gets G2M exactly when G2M_score > S_score and the default S
otherwise. -/
theorem phase_precedence (s g : ℚ) :
    (s < 0 → g < 0 → phaseOf s g = "G1")
    ∧ (¬ (s < 0 ∧ g < 0) → phaseOf s g = if g > s then "G2M" else "S") := by
  constructor
  · intro hs hg
    simp [phaseOf, hs, hg]
  · intro h
    simp only [phaseOf]
    rw [if_neg h]

/-- Witness for `phase_precedence`: a both-negative cell with
G2M_score > S_score is G1, a positive cell with G2M_score > S_score is
G2M, and a cell with S_score ahead is S. -/
theorem phase_precedence_inst :
    phaseOf (-1) (-1 / 2) = "G1" ∧ phaseOf 1 2 = "G2M" ∧ phaseOf 2 1 = "S" := by
  refine ⟨(phase_precedence (-1) (-1 / 2)).1 (by norm_num) (by norm_num), ?_, ?_⟩
  · rw [(phase_precedence 1 2).2 (by norm_num)]
    norm_num
  · rw [(phase_precedence 2 1).2 (by norm_num)]
    norm_num

/-- C1 (counterexample): with a pool of four genes of distinct averages and
n_bins = 4, the code computes n_items = int(np.round(4 / 3)) = 1 and
assigns gene B (competition rank 2) the cut 2, whereas the claim formula
rank // ceil(4 / 3) = 2 // 2 gives bin 1. -/
theorem bin_index_ceil_claim_false :
    (cut_pairs adataABCD adataABCD.var_names 4).lookup "B" = some (some 2)
    ∧ claimBinIndex 4 4 2 = 1
    ∧ (2 : ℤ) ≠ 1 := by
  refine ⟨?_, ?_, ?_⟩ <;> with_unfolding_all decide

/-- C2: no n_bins validation exists.  At n_bins = 1 with random_state = 42
the call raises a bare ZeroDivisionError from the bin-width division, but
only after the global generator was reseeded (its state changed); and at
n_bins = 0 no error is raised at all — scoring proceeds on a negative bin
width.  Only the container itself is unchanged at the n_bins = 1 failure. -/
theorem nbins_invalid_no_validation :
    ((score_genes flipRNG adataABCD ["A"] 50 none 1 "score" 42 false true).result
        = Except.error "ZeroDivisionError: division by zero")
    ∧ (score_genes flipRNG adataABCD ["A"] 50 none 1 "score" 42 false true).rngAfter
        = false
    ∧ (false ≠ true)
    ∧ (score_genes flipRNG adataABCD ["A"] 50 none 1 "score" 42 false true).adataAfter
        = adataABCD
    ∧ (score_genes flipRNG adataABCD ["A"] 2 none 0 "score" 0 false false).result
        = Except.ok none := by
  refine ⟨?_, ?_, ?_, ?_, ?_⟩ <;> with_unfolding_all decide

/-- C3 (amended): for a nonzero random_state the generator is reseeded
before any sampling, so the whole outcome of `score_genes` is independent
of the pre-existing generator state — two invocations with identical
arguments and container contents agree in every observable. -/
theorem score_deterministic_of_seed_nonzero {σ : Type} (rng : RNG σ)
    (a : AnnData) (gene_list : List String) (cs : ℕ)
    (gp : Option (List String)) (nb : ℤ) (sn : String) (rs : ℤ) (cp : Bool)
    (s0 s1 : σ) (h : rs ≠ 0) :
    score_genes rng a gene_list cs gp nb sn rs cp s0
      = score_genes rng a gene_list cs gp nb sn rs cp s1 := by
  simp only [score_genes, score_genes_with_gl, if_pos h]

/-- Witness for `score_deterministic_of_seed_nonzero` at random_state 5. -/
theorem score_deterministic_of_seed_nonzero_inst :
    score_genes flipRNG adataABCD ["B"] 1 none 2 "score" 5 false false
      = score_genes flipRNG adataABCD ["B"] 1 none 2 "score" 5 false true :=
  score_deterministic_of_seed_nonzero flipRNG adataABCD ["B"] 1 none 2
    "score" 5 false false true (by decide)

/-- C3 (counterexample): with random_state = 0 the generator is not
reseeded, so a second invocation with identical arguments and container —
started in the generator state the first invocation left behind — picks a
different control gene and writes a different score column. -/
theorem score_not_deterministic_at_seed_zero :
    (score_genes flipRNG adataABCD ["B"] 1 none 2 "score" 0 false
        false).controlUsed
      ≠ (score_genes flipRNG adataABCD ["B"] 1 none 2 "score" 0 false
          (score_genes flipRNG adataABCD ["B"] 1 none 2 "score" 0 false
            false).rngAfter).controlUsed
    ∧ getObsNum (score_genes flipRNG adataABCD ["B"] 1 none 2 "score" 0 false
        false).adataAfter "score"
      ≠ getObsNum (score_genes flipRNG adataABCD ["B"] 1 none 2 "score" 0 false
          (score_genes flipRNG adataABCD ["B"] 1 none 2 "score" 0 false
            false).rngAfter).adataAfter "score" := by
  constructor <;> with_unfolding_all decide

/-- C10: with random_state = 0 the seeding function of the global generator
is never consulted — replacing it by any other function leaves the whole
outcome unchanged — and the shuffle step then starts from the pre-existing
generator state, on which the control-gene selection genuinely depends
(the two concrete runs differ). -/
theorem no_seed_when_random_state_zero :
    (∀ (σ : Type) (rng : RNG σ) (f : ℤ → σ) (a : AnnData)
        (gene_list : List String) (cs : ℕ) (gp : Option (List String))
        (nb : ℤ) (sn : String) (cp : Bool) (s0 : σ),
        score_genes { rng with seedFn := f } a gene_list cs gp nb sn 0 cp s0
          = score_genes rng a gene_list cs gp nb sn 0 cp s0)
    ∧ (score_genes flipRNG adataABCD ["B"] 1 none 2 "score" 0 false
        false).controlUsed
      ≠ (score_genes flipRNG adataABCD ["B"] 1 none 2 "score" 0 false
        true).controlUsed := by
  constructor
  · intro σ rng f a gene_list cs gp nb sn cp s0
    simp [score_genes, score_genes_with_gl]
  · with_unfolding_all decide

/-- C9: gene-list names absent from `var_names` are dropped by the entry
filter, so appending any collection of unknown names to the gene list
changes nothing about the outcome (scores, control selection, generator
state). -/
theorem unknown_genes_dropped {σ : Type} (rng : RNG σ) (a : AnnData)
    (L U : List String) (cs : ℕ) (gp : Option (List String)) (nb : ℤ)
    (sn : String) (rs : ℤ) (cp : Bool) (s0 : σ)
    (h : ∀ u ∈ U, u ∉ a.var_names) :
    score_genes rng a (L ++ U) cs gp nb sn rs cp s0
      = score_genes rng a L cs gp nb sn rs cp s0 := by
  unfold score_genes
  rw [filteredGeneList_append_unknown a L U h]

/-- Witness for `unknown_genes_dropped`: the unknown gene Z is dropped. -/
theorem unknown_genes_dropped_inst :
    score_genes flipRNG adataABCD (["B"] ++ ["Z"]) 1 none 2 "score" 0 false
        false
      = score_genes flipRNG adataABCD ["B"] 1 none 2 "score" 0 false false :=
  unknown_genes_dropped flipRNG adataABCD ["B"] ["Z"] 1 none 2 "score" 0
    false false (by with_unfolding_all decide)

/-- C5: the control genes used in the score of line 98 are obtained at line
95 by removing the filtered gene list from the sampled control set, so the
two never intersect. -/
theorem control_disjoint_gene_list {σ : Type} (rng : RNG σ) (a : AnnData)
    (gene_list : List String) (cs : ℕ) (gp : Option (List String)) (nb : ℤ)
    (sn : String) (rs : ℤ) (cp : Bool) (s0 : σ) :
    ((score_genes rng a gene_list cs gp nb sn rs cp s0).controlUsed).inter
      (filteredGeneList a gene_list) = [] := by
  simp only [score_genes, score_genes_with_gl]
  by_cases hz : nb - 1 = 0
  · simp [hz, List.inter]
  · apply inter_eq_nil_of_not_mem
    intro x hx
    by_cases hc : cp
    · simp only [hz, if_false, hc, if_true] at hx
      exact (of_decide_eq_true (List.mem_filter.mp hx).2).2
    · simp only [hz, if_false, hc] at hx
      exact (of_decide_eq_true (List.mem_filter.mp hx).2).2

/-- C8: every per-bin selection of lines 89-92 takes, after the shuffle,
exactly min(ctrl_size, bin population) genes from its bin — all of them
when the bin is smaller than ctrl_size, with no error and no padding. -/
theorem bin_selection_count {σ : Type} (rng : RNG σ) (a : AnnData)
    (gene_list : List String) (cs : ℕ) (gp : Option (List String)) (nb : ℤ)
    (sn : String) (rs : ℤ) (cp : Bool) (s0 : σ) (c : Option ℤ)
    (sel : List String)
    (h : (c, sel) ∈
      (score_genes rng a gene_list cs gp nb sn rs cp s0).selections) :
    sel.length
      = min cs (binGenes (cut_pairs a (resolvedGenePool a gp) nb) c).length := by
  simp only [score_genes, score_genes_with_gl] at h
  by_cases hz : nb - 1 = 0
  · rw [if_pos hz] at h
    simp at h
  · rw [if_neg hz, apply_ite ScoreOutcome.selections] at h
    simp only [ite_self] at h
    exact select_bins_mem_length rng.shuffleFn rng.shuffle_perm cs _ _ _ _ _ h

/-- Witness for `bin_selection_count`: the single selection of the concrete
run takes min(1, 3) = 1 gene from the bin of cut 0, which holds A, B, C. -/
theorem bin_selection_count_inst :
    (["A"] : List String).length
      = min 1 (binGenes (cut_pairs adataABCD (resolvedGenePool adataABCD none)
          2) (some 0)).length :=
  bin_selection_count flipRNG adataABCD ["B"] 1 none 2 "score" 0 false false
    (some 0) ["A"] (by with_unfolding_all decide)

/-- C6 (amended): when the forwarded options do not contain ctrl_size, the
Scorer is invoked (twice) with the forced value
min(len(s_genes), len(g2m_genes)); when they do contain it, the call
raises a duplicate-keyword TypeError and the Scorer is never invoked, so
the caller-supplied value still does not take effect. -/
theorem cell_cycle_forced_ctrl_size {σ : Type} (rng : RNG σ) (a : AnnData)
    (s_genes g2m_genes : List String) (cp : Bool) (kwargs : Kwargs) (s0 : σ)
    (h : kwargs.ctrl_size? = none) :
    (score_genes_cell_cycle rng a s_genes g2m_genes cp kwargs s0).ctrlSizeUsed
      = some (min s_genes.length g2m_genes.length) := by
  simp only [score_genes_cell_cycle, h, Option.isSome_none,
    Bool.false_eq_true, if_false]
  split
  · rfl
  · split
    · rfl
    · split
      · split <;> rfl
      · rfl

/-- Witness for `cell_cycle_forced_ctrl_size` on a concrete run: the forced
ctrl_size is min(1, 2) = 1. -/
theorem cell_cycle_forced_ctrl_size_inst :
    (score_genes_cell_cycle flipRNG adataABCD ["A"] ["B", "C"] false
        ⟨none, none, some 2, none, none⟩ false).ctrlSizeUsed = some 1 :=
  cell_cycle_forced_ctrl_size flipRNG adataABCD ["A"] ["B", "C"] false
    ⟨none, none, some 2, none, none⟩ false rfl

/-- C6 (counterexample): supplying ctrl_size through the forwarded options
does not get overridden into min(len(s_genes), len(g2m_genes)) — the call
raises a duplicate-keyword TypeError before the Scorer is ever invoked. -/
theorem cell_cycle_ctrl_size_kwarg_type_error :
    ((score_genes_cell_cycle flipRNG adataABCD ["A"] ["B"] false
        ⟨some 10, none, none, none, none⟩ false).result
      = Except.error
          "TypeError: score_genes() got multiple values for keyword argument ctrl_size")
    ∧ (score_genes_cell_cycle flipRNG adataABCD ["A"] ["B"] false
        ⟨some 10, none, none, none, none⟩ false).ctrlSizeUsed = none
    ∧ (score_genes_cell_cycle flipRNG adataABCD ["A"] ["B"] false
        ⟨some 10, none, none, none, none⟩ false).ctrlSizeUsed
      ≠ some (min (["A"] : List String).length (["B"] : List String).length) := by
  refine ⟨?_, ?_, ?_⟩ <;> with_unfolding_all decide

/-- C1 (amended): the pool gene at position i is assigned the cut obtained
by floor-dividing its competition rank (one plus the number of pool genes
with strictly smaller average expression) by
n_items = int(np.round(pool_size / (n_bins - 1))) — nearest integer with
ties to even, not the ceiling — the cut being NaN when n_items is zero. -/
theorem bin_index_uses_rounded_width (a : AnnData) (pool : List String)
    (n_bins : ℤ) (i : ℕ) (h : i < pool.length) :
    (cut_pairs a pool n_bins).getD i ("", none)
      = (pool.getD i "",
         if roundHalfEvenQ ((pool.length : ℚ) / ((n_bins : ℚ) - 1)) = 0 then
           none
         else some (Int.fdiv
           ((1 + ((pool.map (colAvg a)).filter
               (fun w => decide (w < colAvg a (pool.getD i "")))).length : ℕ)
             : ℤ)
           (roundHalfEvenQ ((pool.length : ℚ) / ((n_bins : ℚ) - 1))))) := by
  have hm : i < (pool.map (colAvg a)).length := by
    rw [List.length_map]
    exact h
  have hr : i < (minRanks (pool.map (colAvg a))).length := by
    rw [minRanks, List.length_map]
    exact hm
  have hz : i < (cut_pairs a pool n_bins).length := by
    simp only [cut_pairs, List.length_zip, List.length_map]
    rw [minRanks, List.length_map, List.length_map]
    omega
  rw [List.getD_eq_getElem _ _ hz, List.getD_eq_getElem _ _ h]
  simp only [cut_pairs, List.getElem_zip, List.getElem_map, minRanks]

/-- Witness for `bin_index_uses_rounded_width`: in the concrete pool of
four genes with n_bins = 4 the divisor is round(4 / 3) = 1 and gene B of
rank 2 gets cut 2. -/
theorem bin_index_uses_rounded_width_inst :
    (cut_pairs adataABCD adataABCD.var_names 4).getD 1 ("", none)
      = ("B", some 2) := by
  refine (bin_index_uses_rounded_width adataABCD adataABCD.var_names 4 1
    (by decide)).trans ?_
  with_unfolding_all decide

lemma score_genes_inplace_shape {σ : Type} (rng : RNG σ) (a : AnnData)
    (gene_list : List String) (cs : ℕ) (gp : Option (List String)) (nb : ℤ)
    (sn : String) (rs : ℤ) (s0 : σ) (h : ¬ (nb - 1 = 0)) :
    ∃ (vec : List ℚ) (s2 : σ) (cg : List String)
      (sel : List (Option ℤ × List String)),
      score_genes rng a gene_list cs gp nb sn rs false s0
        = ⟨Except.ok none, setObs a sn (Col.num vec), s2, cg, sel⟩ := by
  simp only [score_genes, score_genes_with_gl, if_neg h]
  exact ⟨_, _, _, _, rfl⟩

/-- C7: with copy = true either operation leaves the caller's container
unchanged and returns a container extended with the new column(s); with
copy = false nothing (none) is returned and the caller's container itself
gains the new column(s). -/
theorem copy_semantics {σ : Type} (rng : RNG σ) (a : AnnData)
    (gene_list : List String) (cs : ℕ) (gp : Option (List String)) (nb : ℤ)
    (sn : String) (rs : ℤ) (s0 : σ) (hnb : ¬ (nb - 1 = 0)) :
    (∃ vec : List ℚ,
      (score_genes rng a gene_list cs gp nb sn rs true s0).adataAfter = a
      ∧ (score_genes rng a gene_list cs gp nb sn rs true s0).result
          = Except.ok (some (setObs a sn (Col.num vec)))
      ∧ (score_genes rng a gene_list cs gp nb sn rs false s0).result
          = Except.ok none
      ∧ (score_genes rng a gene_list cs gp nb sn rs false s0).adataAfter
          = setObs a sn (Col.num vec))
    ∧ (∀ (s_genes g2m_genes : List String) (kwargs : Kwargs),
        kwargs.ctrl_size? = none → kwargs.copy? = none →
        ¬ (kwargs.n_bins?.getD 25 - 1 = 0) →
        ∃ final : AnnData,
          (score_genes_cell_cycle rng a s_genes g2m_genes true kwargs
              s0).adataAfter = a
          ∧ (score_genes_cell_cycle rng a s_genes g2m_genes true kwargs
              s0).result = Except.ok (some final)
          ∧ (score_genes_cell_cycle rng a s_genes g2m_genes false kwargs
              s0).result = Except.ok none
          ∧ (score_genes_cell_cycle rng a s_genes g2m_genes false kwargs
              s0).adataAfter = final
          ∧ (getObs final "phase").isSome = true
          ∧ (getObs final "S_score").isSome = true
          ∧ (getObs final "G2M_score").isSome = true) := by
  constructor
  · simp only [score_genes, score_genes_with_gl, if_neg hnb]
    exact ⟨_, rfl, rfl, rfl, rfl⟩
  · intro sg g2m kw h1 h2 h3
    obtain ⟨v1, st1, cg1, sel1, e1⟩ := score_genes_inplace_shape rng a sg
      (min sg.length g2m.length) kw.gene_pool? (kw.n_bins?.getD 25) "S_score"
      (kw.random_state?.getD 0) s0 h3
    obtain ⟨v2, st2, cg2, sel2, e2⟩ := score_genes_inplace_shape rng
      (setObs a "S_score" (Col.num v1)) g2m (min sg.length g2m.length)
      kw.gene_pool? (kw.n_bins?.getD 25) "G2M_score"
      (kw.random_state?.getD 0) st1 h3
    have hS : getObsNum (setObs (setObs a "S_score" (Col.num v1)) "G2M_score"
        (Col.num v2)) "S_score" = some v1 := by
      rw [getObsNum_setObs_other _ _ _ _ (by decide), getObsNum_setObs_num]
    have hG : getObsNum (setObs (setObs a "S_score" (Col.num v1)) "G2M_score"
        (Col.num v2)) "G2M_score" = some v2 := getObsNum_setObs_num _ _ _
    refine ⟨setObs (setObs (setObs a "S_score" (Col.num v1)) "G2M_score"
      (Col.num v2)) "phase" (Col.cat (List.zipWith phaseOf v1 v2)),
      ?_, ?_, ?_, ?_, ?_, ?_, ?_⟩
    · simp only [score_genes_cell_cycle, h1, h2, Option.isSome_none,
        Bool.false_eq_true, if_false, if_true, Option.getD_none, e1, e2, hS,
        hG]
    · simp only [score_genes_cell_cycle, h1, h2, Option.isSome_none,
        Bool.false_eq_true, if_false, if_true, Option.getD_none, e1, e2, hS,
        hG]
    · simp only [score_genes_cell_cycle, h1, h2, Option.isSome_none,
        Bool.false_eq_true, if_false, if_true, Option.getD_none, e1, e2, hS,
        hG]
    · simp only [score_genes_cell_cycle, h1, h2, Option.isSome_none,
        Bool.false_eq_true, if_false, if_true, Option.getD_none, e1, e2, hS,
        hG]
    · rw [getObs_setObs_same]
      rfl
    · rw [getObs_setObs_other _ _ _ _ (by decide),
        getObs_setObs_other _ _ _ _ (by decide), getObs_setObs_same]
      rfl
    · rw [getObs_setObs_other _ _ _ _ (by decide), getObs_setObs_same]
      rfl

/-- Witness for `copy_semantics` on concrete copy = true runs of both
operations: the caller's container is unchanged. -/
theorem copy_semantics_inst :
    (score_genes flipRNG adataABCD ["B"] 1 none 2 "score" 0 true
        false).adataAfter = adataABCD
    ∧ (score_genes_cell_cycle flipRNG adataABCD ["A"] ["B", "C"] true
        ⟨none, none, some 2, none, none⟩ false).adataAfter = adataABCD := by
  obtain ⟨⟨vec, hA, _, _, _⟩, hcc⟩ := copy_semantics flipRNG adataABCD ["B"]
    1 none 2 "score" 0 false (by decide)
  obtain ⟨final, hB, _⟩ := hcc ["A"] ["B", "C"]
    ⟨none, none, some 2, none, none⟩ rfl rfl (by decide)
  exact ⟨hA, hB⟩
